import Mathlib

/-!
Verification of the ARK A2A/OpenAI gateway against its specification.

The definitions below are shallow embeddings of the Python sources:
  services/ark-api-a2a/src/a2agw/execution.py        (A2A per-task executor)
  services/ark-api/.../api/v1/a2agw/query.py         (A2A query driver)
  services/ark-api/.../api/v1/a2agw/registry.py      (agent-card projector)
  services/ark-api/.../utils/query_polling.py        (OpenAI-path query polling)
  services/ark-api/.../utils/streaming.py            (single-chunk SSE fallback)
  services/ark-api/.../api/v1/openai.py              (OpenAI adapter, streaming proxy)

Conventions: optional Python values become Option; Python string truthiness
(`x or default`) becomes pyOr; dictionary `.get(k, d)` becomes Option.getD;
async effects (sleeps, network gets) are modelled by an observation function
`Nat → observed state` indexed by poll attempt, and wall-clock/attempt-bounded
loops by fuel recursion.
-/



/-- Python `x or default` for an optional string: None and the empty string are
falsy and select the default. -/
def pyOr (x : Option String) (d : String) : String :=
  match x with
  | some s => if s.isEmpty then d else s
  | none => d

/-- Python `len(s.split())` helper: counts maximal runs of non-whitespace.
The Bool flag records whether we are inside a word. -/
def wordCountAux : List Char → Bool → Nat
  | [], _ => 0
  | c :: cs, inWord =>
    if c.isWhitespace then wordCountAux cs false
    else (if inWord then 0 else 1) + wordCountAux cs true

/-- Number of whitespace-separated words of a string, Python `len(s.split())`. -/
def pyWords (s : String) : Nat := wordCountAux s.data false

/-- Python `sep.join(l)`. -/
def pyJoin (sep : String) : List String → String
  | [] => ""
  | [s] => s
  | s :: rest => s ++ sep ++ pyJoin sep rest

/-! ## A2A per-task executor (execution.py) -/

/-- Task states used by the executor (a2a.types.TaskState subset it emits). -/
inductive TaskState where
  | working
  | completed
  | failed
  | canceled
deriving DecidableEq, Repr

/-- The `TaskStatus` payload of a status-update event (timestamp elided: it is
wall-clock metadata with no bearing on the claims). -/
structure StatusInfo where
  state : TaskState
  message : Option String
deriving DecidableEq, Repr

/-- Events the executor enqueues: task status updates and agent text messages. -/
inductive A2AEvent where
  | status (contextId taskId : String) (info : StatusInfo) (final : Bool)
  | text (content : String) (contextId taskId : Option String)
deriving DecidableEq, Repr

/-- ARKAgentExecutor._create_status_event: context/task ids default to
"default"/"unknown" via Python `or`; a message is attached only for failed
states with a truthy error message. -/
def create_status_event (context_id task_id : Option String) (state : TaskState)
    (final : Bool) (error_msg : Option String) : A2AEvent :=
  let message : Option String :=
    match error_msg with
    | some e => if ¬e.isEmpty ∧ state = TaskState.failed then some ("Task failed: " ++ e) else none
    | none => none
  .status (pyOr context_id "default") (pyOr task_id "unknown") ⟨state, message⟩ final

/-- Terminating outcomes of awaiting post_query_and_wait under asyncio.wait_for:
the query result arrives, the wait times out, or the awaited call raises. -/
inductive QueryOutcome where
  | success (result : String)
  | timeout
  | error (msg : String)
deriving DecidableEq, Repr

namespace ARKAgentExecutor

/-- ARKAgentExecutor.execute: the sequence of events enqueued for one
terminating call, as a function of the query outcome.  The working status is
sent first; then, per outcome, the success/timeout/error messages and the
final status event exactly as in execution.py. -/
def execute (timeout : Nat) (context_id task_id : Option String)
    (outcome : QueryOutcome) : List A2AEvent :=
  let working := create_status_event context_id task_id TaskState.working false none
  match outcome with
  | .success result =>
      [working,
       .text result context_id task_id,
       create_status_event context_id task_id TaskState.completed true none]
  | .timeout =>
      [working,
       .text s!"Query timed out after {timeout} seconds" context_id task_id,
       create_status_event context_id task_id TaskState.failed true
         (some s!"Query timeout after {timeout}s")]
  | .error e =>
      [working,
       .text ("Error: " ++ e) context_id task_id,
       create_status_event context_id task_id TaskState.failed true (some e)]

end ARKAgentExecutor

/-- An event is final when it is a status update with final=true. -/
def isFinalEvent : A2AEvent → Bool
  | .status _ _ _ f => f
  | .text _ _ _ => false

/-- A working status update with final=false. -/
def isWorkingNonFinal : A2AEvent → Bool
  | .status _ _ info f => (match info.state with | .working => true | _ => false) && !f
  | .text _ _ _ => false

/-- A canceled status update with final=true. -/
def isCanceledFinal : A2AEvent → Bool
  | .status _ _ info f => (match info.state with | .canceled => true | _ => false) && f
  | .text _ _ _ => false

/-! ## Cancellation (execution.py, ARKAgentExecutor.cancel) -/

/-- One cancel request: the task id read from the context (the getattr default
"unknown" applies only when the attribute is missing; here it is a string) and
the context id. -/
structure CancelCall where
  task_id : String
  context_id : Option String
deriving DecidableEq, Repr

namespace ARKAgentExecutor

/-- ARKAgentExecutor.cancel over the active-task map (modelled by the list of
registered task ids; dict keys are unique but only membership matters).  If the
task id is registered, the entry is removed (dict.pop) and one canceled final
status event is enqueued; otherwise the call logs and enqueues nothing. -/
def cancel (active : List String) (c : CancelCall) : List String × List A2AEvent :=
  if c.task_id ∈ active then
    (active.filter (fun x => x ≠ c.task_id),
     [create_status_event c.context_id (some c.task_id) TaskState.canceled true none])
  else (active, [])

end ARKAgentExecutor

/-- Run a sequence of cancel calls, tagging each enqueued event with the raw
task id of the call that produced it. -/
def runCancels : List String → List CancelCall → List (String × A2AEvent)
  | _, [] => []
  | active, c :: rest =>
    (ARKAgentExecutor.cancel active c).2.map (fun e => (c.task_id, e)) ++
      runCancels (ARKAgentExecutor.cancel active c).1 rest

/-- Number of canceled final events produced by cancel calls carrying a given
task id. -/
def canceledEventsFor (t : String) (l : List (String × A2AEvent)) : Nat :=
  l.countP (fun p => decide (p.1 = t) && isCanceledFinal p.2)

/-! ## A2A query driver (a2agw/query.py, wait_for_query) -/

/-- One element of status.responses as read by the A2A driver: the content
attribute may be null. -/
structure A2AResponse where
  content : Option String
deriving DecidableEq, Repr

/-- The status object of a Query as read by the A2A driver: phase and the
responses list may each be null. -/
structure A2AStatus where
  phase : Option String
  responses : Option (List A2AResponse)
deriving DecidableEq, Repr

/-- A Query record as observed by one poll; the status attribute may be null. -/
structure A2AQuery where
  status : Option A2AStatus
deriving DecidableEq, Repr

/-- What wait_for_query produces: the returned content string, or the message
of the exception it raises. -/
inductive WaitResult where
  | ok (content : String)
  | error (msg : String)
deriving DecidableEq, Repr

/-- One iteration body of wait_for_query's polling loop: none means the
iteration falls through to the 1-second sleep (status or phase falsy, or a
non-terminal phase); some r means the loop returns or raises with r. -/
def waitStep (q : A2AQuery) : Option WaitResult :=
  match q.status with
  | none => none
  | some st =>
    match st.phase with
    | none => none
    | some p =>
      if p.isEmpty then none
      else if p = "done" then
        some (match st.responses with
              | some (r :: _) => .ok (pyOr r.content "No response content")
              | _ => .ok "Query completed but no response available")
      else if p = "error" then
        let error_msg :=
          match st.responses with
          | some (r :: _) => pyOr r.content "Query failed"
          | _ => "Query failed"
        some (.error s!"Query error: {error_msg}")
      else none

/-- The polling loop of wait_for_query: obs i is the Query observed by the 1-st
poll after i seconds; the wall-clock bound of timeout seconds at one poll per
second is the fuel. -/
def waitLoop (timeout : Nat) (obs : Nat → A2AQuery) : Nat → Nat → WaitResult
  | 0, _ => .error s!"Query timeout after {timeout} seconds"
  | fuel + 1, i =>
    match waitStep (obs i) with
    | some r => r
    | none => waitLoop timeout obs fuel (i + 1)

/-- wait_for_query(namespace, query_name, timeout): poll once per second until
a terminal phase or the wall clock exceeds the timeout. -/
def wait_for_query (timeout : Nat) (obs : Nat → A2AQuery) : WaitResult :=
  waitLoop timeout obs timeout 0

/-! ## OpenAI-path polling (utils/query_polling.py) -/

/-- Annotation maps attached to queries (string keys to string values). -/
def AnnMap := List (String × String)
deriving DecidableEq, Repr

/-- A chat message as seen by the token counter: a dict (whose content value is
rendered by str; an absent key renders as the empty string) or a non-dict
rendered by str. -/
inductive MsgParam where
  | dict (content : Option String)
  | other (s : String)
deriving DecidableEq, Repr

/-- The text contributed by one message to the prompt word count. -/
def msgText : MsgParam → String
  | .dict c => c.getD ""
  | .other s => s

structure CompletionUsage where
  prompt_tokens : Nat
  completion_tokens : Nat
  total_tokens : Nat
deriving DecidableEq, Repr

structure ChatCompletionMessage where
  role : String
  content : String
deriving DecidableEq, Repr

structure Choice where
  index : Nat
  message : ChatCompletionMessage
  finish_reason : String
deriving DecidableEq, Repr

/-- The OpenAI chat-completion response assembled by the gateway (created is
the current unix time, passed in as now). -/
structure ChatCompletion where
  id : String
  object : String
  created : Nat
  model : String
  choices : List Choice
  usage : CompletionUsage
  ark : Option AnnMap
deriving DecidableEq, Repr

/-- _create_chat_completion_response: joins message texts with single spaces,
counts whitespace-separated words for the usage estimate, and builds one
assistant choice carrying the full content with finish_reason stop.  The ark
sibling is attached only for a truthy annotations dict. -/
def create_chat_completion_response (query_name model content : String)
    (messages : List MsgParam) (annotations : Option AnnMap) (now : Nat) : ChatCompletion :=
  let prompt_text := pyJoin " " (messages.map msgText)
  let prompt_tokens := pyWords prompt_text
  let completion_tokens := pyWords content
  { id := query_name
    object := "chat.completion"
    created := now
    model := model
    choices := [⟨0, ⟨"assistant", content⟩, "stop"⟩]
    usage := ⟨prompt_tokens, completion_tokens, prompt_tokens + completion_tokens⟩
    ark := match annotations with
           | some l => if l.isEmpty then none else some l
           | none => none }

/-- One element of status.responses as read by the OpenAI polling path: dict
gets for content and target, absent keys modelled as none. -/
structure QueryResponse where
  content : Option String
  target : Option String
deriving DecidableEq, Repr

/-- The status dict of a query on the OpenAI polling path. -/
structure QueryStatus where
  phase : Option String
  message : Option String
  responses : Option (List QueryResponse)
deriving DecidableEq, Repr

/-- A query as observed by one poll: the status dict (possibly absent) and
metadata.annotations. -/
structure QueryRec where
  status : Option QueryStatus
  annotations : Option AnnMap
deriving DecidableEq, Repr

structure TargetError where
  target : String
  message : String
deriving DecidableEq, Repr

/-- The structured error detail built by _get_error_detail. -/
structure ErrorDetail where
  message : String
  errors : List TargetError
deriving DecidableEq, Repr

/-- HTTPException details raised on the OpenAI path: a plain string or the
structured error dict. -/
inductive HttpDetail where
  | text (s : String)
  | err (d : ErrorDetail)
deriving DecidableEq, Repr

structure HttpError where
  status_code : Nat
  detail : HttpDetail
deriving DecidableEq, Repr

/-- The target_errors accumulation of _get_error_detail: one {target, message}
pair per response with non-empty content, the target defaulting to
"target-idx" by position. -/
def collectTargetErrors : Nat → List QueryResponse → List TargetError
  | _, [] => []
  | idx, r :: rest =>
    let content := r.content.getD ""
    if content.isEmpty then collectTargetErrors (idx + 1) rest
    else ⟨r.target.getD s!"target-{idx}", content⟩ :: collectTargetErrors (idx + 1) rest

/-- _get_error_detail: main message is the first target error, else a truthy
status message, else the fixed literal; errors lists the target errors only
when there are at least two of them. -/
def get_error_detail (st : QueryStatus) : ErrorDetail :=
  let error_message := st.message.getD ""
  let error_responses := st.responses.getD []
  let target_errors := collectTargetErrors 0 error_responses
  let main_message :=
    match target_errors with
    | te :: _ => te.message
    | [] =>
      if error_message.isEmpty then "Query execution failed: No error details available"
      else error_message
  { message := main_message
    errors := if 1 < target_errors.length then target_errors else [] }

/-- Modelled from the spec wording, for comparison with the code: the first
non-empty response content, scanning in order. -/
def firstNonEmptyContent : List QueryResponse → Option String
  | [] => none
  | r :: rest =>
    let c := r.content.getD ""
    if c.isEmpty then firstNonEmptyContent rest else some c

/-- One iteration body of poll_query_completion's loop: none means the
iteration falls through to the 5-second sleep; some means return or raise. -/
def pollLoopBody (query_name model : String) (messages : List MsgParam) (now : Nat)
    (q : QueryRec) : Option (Except HttpError ChatCompletion) :=
  let st := q.status.getD ⟨none, none, none⟩
  let phase := st.phase.getD "pending"
  if phase = "done" then
    match st.responses.getD [] with
    | [] => some (.error ⟨500, .text "No response received"⟩)
    | r :: _ =>
      some (.ok (create_chat_completion_response query_name model (r.content.getD "")
        messages q.annotations now))
  else if phase = "error" then
    some (.error ⟨500, .err (get_error_detail st)⟩)
  else none

/-- The polling loop of poll_query_completion, instrumented: the result, the
number of get-query attempts performed, and the seconds spent in the 5-second
inter-attempt sleeps (no sleep after the last attempt). -/
def pollRun (query_name model : String) (messages : List MsgParam) (now : Nat)
    (obs : Nat → QueryRec) : Nat → Nat → Except HttpError ChatCompletion × Nat × Nat
  | 0, _ => (.error ⟨504, .text s!"Query {query_name} timed out after 5 minutes"⟩, 0, 0)
  | fuel + 1, attempt =>
    match pollLoopBody query_name model messages now (obs attempt) with
    | some r => (r, 1, 0)
    | none =>
      let p := pollRun query_name model messages now obs fuel (attempt + 1)
      (p.1, p.2.1 + 1, p.2.2 + (if 0 < fuel then 5 else 0))

/-- poll_query_completion: up to max_attempts = 60 polls. -/
def poll_query_completion (query_name model : String) (messages : List MsgParam)
    (now : Nat) (obs : Nat → QueryRec) : Except HttpError ChatCompletion :=
  (pollRun query_name model messages now obs 60 0).1

/-- Number of get-query attempts a call performs. -/
def pollAttempts (query_name model : String) (messages : List MsgParam)
    (now : Nat) (obs : Nat → QueryRec) : Nat :=
  (pollRun query_name model messages now obs 60 0).2.1

/-- Seconds spent sleeping between attempts. -/
def pollSleepSeconds (query_name model : String) (messages : List MsgParam)
    (now : Nat) (obs : Nat → QueryRec) : Nat :=
  (pollRun query_name model messages now obs 60 0).2.2

/-- The phase string a poll iteration reads: status.get("phase", "pending")
over the possibly-absent status dict. -/
def observedPhase (q : QueryRec) : String :=
  (q.status.getD ⟨none, none, none⟩).phase.getD "pending"

/-! ## JSON values (json.loads results) and rendering (json.dumps) -/

/-- JSON values, as produced by json.loads. -/
inductive Json where
  | null
  | bool (b : Bool)
  | num (n : Int)
  | str (s : String)
  | arr (items : List Json)
  | obj (fields : List (String × Json))

/-- Dict key lookup over parsed JSON object fields. -/
def jsonLookup (k : String) : List (String × Json) → Option Json
  | [] => none
  | (k2, v) :: rest => if k2 = k then some v else jsonLookup k rest

/-- Escapes one character for a JSON string literal. -/
def jsonEscapeChar (c : Char) : String :=
  if c = '"' then "\\\"" else if c = '\\' then "\\\\"
  else if c = '\n' then "\\n" else if c = '\t' then "\\t" else if c = '\r' then "\\r"
  else String.singleton c

/-- Renders a JSON string literal. -/
def jsonStr (s : String) : String :=
  "\"" ++ String.join (s.data.map jsonEscapeChar) ++ "\""

mutual

/-- Renders a JSON value as json.dumps does (default separators). -/
def jsonDump : Json → String
  | .null => "null"
  | .bool true => "true"
  | .bool false => "false"
  | .num n => toString n
  | .str s => jsonStr s
  | .arr items => "[" ++ jsonDumpItems items ++ "]"
  | .obj fields => "\x7b" ++ jsonDumpFields fields ++ "\x7d"

/-- Renders array items joined by ", ". -/
def jsonDumpItems : List Json → String
  | [] => ""
  | [j] => jsonDump j
  | j :: rest => jsonDump j ++ ", " ++ jsonDumpItems rest

/-- Renders object fields joined by ", ". -/
def jsonDumpFields : List (String × Json) → String
  | [] => ""
  | [(k, v)] => jsonStr k ++ ": " ++ jsonDump v
  | (k, v) :: rest => jsonStr k ++ ": " ++ jsonDump v ++ ", " ++ jsonDumpFields rest
end

/-! ## Single-chunk SSE fallback (utils/streaming.py) -/

structure ChoiceDelta where
  role : String
  content : Option String
deriving DecidableEq, Repr

structure ChunkChoice where
  index : Nat
  delta : ChoiceDelta
  finish_reason : String
deriving DecidableEq, Repr

/-- The ChatCompletionChunk assembled from a complete ChatCompletion. -/
structure ChatCompletionChunk where
  id : String
  object : String
  created : Nat
  model : String
  choices : List ChunkChoice
  usage : CompletionUsage
  ark : Option AnnMap
deriving DecidableEq, Repr

/-- The chunk construction in create_single_chunk_sse_response: one delta
choice carrying the full content with finish_reason stop, usage copied from
the completion; none models the IndexError on an empty choices list. -/
def completionToChunk (c : ChatCompletion) : Option ChatCompletionChunk :=
  c.choices.head?.map fun ch0 =>
    { id := c.id
      object := "chat.completion.chunk"
      created := c.created
      model := c.model
      choices := [⟨0, ⟨"assistant", some ch0.message.content⟩, "stop"⟩]
      usage := c.usage
      ark := c.ark }

/-- Renders an annotations map as a JSON object. -/
def annMapJson (l : AnnMap) : Json :=
  .obj (l.map fun kv => (kv.1, .str kv.2))

/-- Renders one chunk choice as JSON. -/
def chunkChoiceJson (ch : ChunkChoice) : Json :=
  .obj [("index", .num ch.index),
        ("delta", .obj [("role", .str ch.delta.role),
                        ("content", match ch.delta.content with
                                    | some s => .str s
                                    | none => .null)]),
        ("finish_reason", .str ch.finish_reason)]

/-- Renders the chunk.model_dump_json() payload of the SSE data frame. -/
def chunkJson (ck : ChatCompletionChunk) : String :=
  jsonDump (.obj
    ([("id", .str ck.id),
      ("object", .str ck.object),
      ("created", .num ck.created),
      ("model", .str ck.model),
      ("choices", .arr (ck.choices.map chunkChoiceJson)),
      ("usage", .obj [("prompt_tokens", .num ck.usage.prompt_tokens),
                      ("completion_tokens", .num ck.usage.completion_tokens),
                      ("total_tokens", .num ck.usage.total_tokens)])] ++
     (match ck.ark with
      | some l => [("ark", .obj [("annotations", annMapJson l)])]
      | none => [])))

/-- create_single_chunk_sse_response: the two SSE frames of the fallback
path, each terminated by the double newline. -/
def create_single_chunk_sse_response (completion : ChatCompletion) : Option (List String) :=
  (completionToChunk completion).map fun ck =>
    [s!"data: {chunkJson ck}\n\n", "data: [DONE]\n\n"]

/-- The streaming configuration resolved per request ({enabled, base_url};
only enabled matters for the branch decision). -/
structure StreamingConfigRec where
  enabled : Bool
deriving DecidableEq, Repr

/-- The three ways chat_completions serves a request. -/
inductive StreamDecision where
  | nonStreamPoll
  | fallbackSingleChunk
  | proxyStream (url : String)
deriving DecidableEq, Repr

/-- The branch decision in chat_completions: stream=false polls; otherwise a
missing or disabled streaming config falls back to the single-chunk SSE
response; otherwise the request is proxied to the streaming backend URL. -/
def streamingDecision (stream : Bool) (cfg : Option StreamingConfigRec)
    (base_url query_name : String) : StreamDecision :=
  if stream = false then .nonStreamPoll
  else
    match cfg with
    | none => .fallbackSingleChunk
    | some c =>
      if c.enabled then
        .proxyStream (base_url ++ "/stream/" ++ query_name ++ "?from-beginning=true&wait-for-query=30s")
      else .fallbackSingleChunk

/-! ## Streaming proxy error handling (api/v1/openai.py, proxy_streaming_response) -/

/-- The error payload of the single SSE error frame: the backend status code
plus message/type/code fields. -/
structure StreamingErrorData where
  status : Nat
  message : String
  type : String
  code : Json

/-- The validation chain over the parsed error body: the body must parse as a
JSON object with an object-valued "error" field holding string "message" and
"type" fields; "code" defaults to "server_error" but keeps whatever JSON value
is present.  none models any json.JSONDecodeError or ValueError raised. -/
def parseErrorBody (body : Option Json) : Option (String × String × Json) :=
  match body with
  | none => none
  | some j =>
    match j with
    | .obj fields =>
      match jsonLookup "error" fields with
      | none => none
      | some e =>
        match e with
        | .obj ef =>
          match jsonLookup "message" ef with
          | some (.str msg) =>
            match jsonLookup "type" ef with
            | some (.str ty) =>
              some ⟨msg, ty, (jsonLookup "code" ef).getD (.str "server_error")⟩
            | _ => none
          | _ => none
        | _ => none
    | _ => none

/-- The parsed error with the backend status code attached, as the source
builds error_data from the validated response fields. -/
def parseErrorStructure (status_code : Nat) (body : Option Json) : Option StreamingErrorData :=
  (parseErrorBody body).map fun p => ⟨status_code, p.1, p.2.1, p.2.2⟩

/-- The default error synthesized on any parse failure. -/
def synthesizedError (status_code : Nat) (reason_phrase : String) : StreamingErrorData :=
  ⟨status_code, s!"{status_code} {reason_phrase}", "server_error", .str "server_error"⟩

/-- Renders the error_data dict as json.dumps does (insertion order of the
source: status, message, type, code under the error key). -/
def errorFrameJson (e : StreamingErrorData) : String :=
  jsonDump (.obj [("error", .obj [("status", .num e.status),
                                  ("message", .str e.message),
                                  ("type", .str e.type),
                                  ("code", e.code)])])

/-- The backend response observed by one proxied request: status, reason
phrase, the parse outcome of its body, and its SSE lines for the 2xx path. -/
structure BackendResponse where
  status_code : Nat
  reason_phrase : String
  body : Option Json
  lines : List String

/-- proxy_streaming_response: on status other than 200, emit exactly one
data frame holding the parsed-or-synthesized error and stop; on 200, forward
each non-empty line with the double-newline separator restored. -/
def proxy_streaming_response (r : BackendResponse) : List String :=
  if r.status_code ≠ 200 then
    let e := (parseErrorStructure r.status_code r.body).getD
      (synthesizedError r.status_code r.reason_phrase)
    [s!"data: {errorFrameJson e}\n\n"]
  else
    (r.lines.filter (fun l => ¬l.trim.isEmpty)).map (fun l => l ++ "\n\n")

/-- The synthesized error for the concrete witness backend response. -/
def witnessProxyError : StreamingErrorData := synthesizedError 503 "Service Unavailable"

/-! ## Agent-card projector (a2agw/registry.py) -/

/-- A structured skill entry from the skills annotation. -/
structure SkillDict where
  id : Option String
  name : String
  description : Option String
  tags : List String
deriving DecidableEq, Repr

/-- One element iterated from the skills annotation: a dict or anything else
(dropped with a warning). -/
inductive SkillsEntry where
  | dict (d : SkillDict)
  | other (s : String)
deriving DecidableEq, Repr

/-- A value stored under an annotation key: a raw string or a structured list
of entries. -/
inductive AnnValue where
  | str (s : String)
  | list (entries : List SkillsEntry)
deriving DecidableEq, Repr

/-- Python truthiness of an annotation value. -/
def pyTruthyAnn : AnnValue → Bool
  | .str s => !s.isEmpty
  | .list l => !l.isEmpty

/-- Iterating an annotation value with enumerate: a string yields its
characters (each a non-dict entry), a list yields its entries. -/
def entriesOf : AnnValue → List SkillsEntry
  | .str s => s.data.map (fun c => .other (String.singleton c))
  | .list l => l

/-- The two annotation keys the projector consults: the singular
a2a.mckinsey.com/skill key (fallback trigger) and the plural
a2a.mckinsey.com/skills key (structured entries). -/
structure AgentAnnotations where
  skill : Option AnnValue
  skills : Option AnnValue
deriving DecidableEq, Repr

structure AgentSkill where
  id : String
  name : String
  description : Option String
  tags : List String
deriving DecidableEq, Repr

structure AgentCapabilities where
  streaming : Bool
  pushNotifications : Bool
  stateTransitionHistory : Bool
deriving DecidableEq, Repr

structure AgentCard where
  name : String
  description : String
  capabilities : AgentCapabilities
  skills : List AgentSkill
  url : String
  version : String
  defaultInputModes : List String
  defaultOutputModes : List String
deriving DecidableEq, Repr

/-- The external URL components read from the environment. -/
structure UrlComponents where
  scheme : String
  host : String
  port : String
  path : String
deriving DecidableEq, Repr

/-- get_external: the advertised per-agent URL. -/
def get_external (u : UrlComponents) (agent_name : String) : String :=
  let sch := u.scheme
  let h := u.host
  let p := u.port
  let pa := u.path
  s!"{sch}://{h}:{p}{pa}/a2a/agent/{agent_name}/"

/-- The skills loop of ark_to_agent_card: enumerate the entries, keep dict
entries as AgentSkill records whose missing or empty id is replaced by the
name-skill-index form, drop non-dict entries with a warning (the index still
advances for dropped entries, as enumerate does). -/
def processSkills (agent : String) : Nat → List SkillsEntry → List AgentSkill
  | _, [] => []
  | idx, .dict d :: rest =>
    ⟨pyOr d.id s!"{agent}-skill-{idx}", d.name, d.description, d.tags⟩ ::
      processSkills agent (idx + 1) rest
  | idx, .other _ :: rest => processSkills agent (idx + 1) rest

/-- The synthetic fallback skill. -/
def defaultSkill (agent : String) : AgentSkill :=
  ⟨s!"{agent}-default-skill", "General", some "General agent capabilities", ["general"]⟩

/-- ark_to_agent_card: capabilities are fixed; structured skills come from the
plural skills annotation; the fallback General skill is appended exactly when
the singular skill annotation is falsy; the description defaults via Python or. -/
def ark_to_agent_card (name : String) (ann : AgentAnnotations)
    (description : Option String) (u : UrlComponents) : AgentCard :=
  let skills := ann.skill.getD (.list [])
  let skills_data := ann.skills.getD (.list [])
  let skills_list := processSkills name 0 (entriesOf skills_data)
  let skills_list :=
    if pyTruthyAnn skills then skills_list else skills_list ++ [defaultSkill name]
  { name := name
    description := pyOr description "No description"
    capabilities := ⟨true, false, false⟩
    skills := skills_list
    url := get_external u name
    version := "1.0.0"
    defaultInputModes := ["text"]
    defaultOutputModes := ["text"] }

/-- C1: every terminating execute enqueues exactly one final event, which is
the last event; exactly one working non-final event, which is the first; on
success the order is working, text(result), completed-final; on timeout the
order is working, text "Query timed out after N seconds", failed-final. -/
theorem execute_event_ordering (t : Nat) (cid tid : Option String) (o : QueryOutcome) :
    (ARKAgentExecutor.execute t cid tid o).countP isFinalEvent = 1 ∧
    (ARKAgentExecutor.execute t cid tid o).dropLast.countP isFinalEvent = 0 ∧
    (ARKAgentExecutor.execute t cid tid o).countP isWorkingNonFinal = 1 ∧
    (ARKAgentExecutor.execute t cid tid o).head? =
      some (create_status_event cid tid TaskState.working false none) ∧
    (match o with
     | .success r =>
         ARKAgentExecutor.execute t cid tid o =
           [create_status_event cid tid TaskState.working false none,
            .text r cid tid,
            create_status_event cid tid TaskState.completed true none]
     | .timeout =>
         ARKAgentExecutor.execute t cid tid o =
           [create_status_event cid tid TaskState.working false none,
            .text s!"Query timed out after {t} seconds" cid tid,
            create_status_event cid tid TaskState.failed true
              (some s!"Query timeout after {t}s")]
     | .error e =>
         ARKAgentExecutor.execute t cid tid o =
           [create_status_event cid tid TaskState.working false none,
            .text ("Error: " ++ e) cid tid,
            create_status_event cid tid TaskState.failed true (some e)]) := by
  cases o <;>
    simp [ARKAgentExecutor.execute, create_status_event, isFinalEvent, isWorkingNonFinal,
      List.countP_cons, List.countP_nil, List.dropLast]

theorem canceledEventsFor_append (t : String) (l1 l2 : List (String × A2AEvent)) :
    canceledEventsFor t (l1 ++ l2) = canceledEventsFor t l1 + canceledEventsFor t l2 :=
  List.countP_append _ _ _

theorem canceledEventsFor_single_ne {s t : String} (hne : s ≠ t) (e : A2AEvent) :
    canceledEventsFor t [(s, e)] = 0 := by
  simp [canceledEventsFor, List.countP_cons, hne]

theorem canceledEventsFor_single_canceled (t : String) (cid : Option String) :
    canceledEventsFor t
      [(t, create_status_event cid (some t) TaskState.canceled true none)] = 1 := by
  simp [canceledEventsFor, List.countP_cons, create_status_event, isCanceledFinal]

theorem runCancels_not_active (t : String) (cs : List CancelCall) :
    ∀ active : List String, t ∉ active →
      canceledEventsFor t (runCancels active cs) = 0 := by
  induction cs with
  | nil => intro active _; simp [runCancels, canceledEventsFor]
  | cons c rest ih =>
    intro active hna
    by_cases hc : c.task_id ∈ active
    · have hne : c.task_id ≠ t := fun h => hna (h ▸ hc)
      have hrest : t ∉ active.filter (fun x => x ≠ c.task_id) :=
        fun h => hna (List.mem_of_mem_filter h)
      simp only [runCancels, ARKAgentExecutor.cancel, if_pos hc, List.map_cons,
        List.map_nil, canceledEventsFor_append]
      rw [canceledEventsFor_single_ne hne, ih _ hrest]
    · simp only [runCancels, ARKAgentExecutor.cancel, if_neg hc, List.map_nil,
        List.nil_append]
      exact ih active hna

theorem runCancels_at_most_one (t : String) (cs : List CancelCall) :
    ∀ active : List String, canceledEventsFor t (runCancels active cs) ≤ 1 := by
  induction cs with
  | nil => intro active; simp [runCancels, canceledEventsFor]
  | cons c rest ih =>
    intro active
    by_cases hc : c.task_id ∈ active
    · simp only [runCancels, ARKAgentExecutor.cancel, if_pos hc, List.map_cons,
        List.map_nil, canceledEventsFor_append]
      by_cases ht : c.task_id = t
      · rw [ht]
        have hrest : t ∉ active.filter (fun x => x ≠ t) := by
          intro h
          have := (List.mem_filter.mp h).2
          simp at this
        rw [canceledEventsFor_single_canceled, runCancels_not_active t rest _ hrest]
      · rw [canceledEventsFor_single_ne ht]
        simpa using ih _
    · simp only [runCancels, ARKAgentExecutor.cancel, if_neg hc, List.map_nil,
        List.nil_append]
      exact ih active

/-- C8: any sequence of cancel calls produces at most one canceled final event
for a given task id; a cancel of a registered task id removes the entry and
enqueues exactly one canceled final event; a cancel of an unregistered task id
enqueues nothing and leaves the map unchanged. -/
theorem cancel_idempotent (t : String) (active : List String) (cs : List CancelCall)
    (c : CancelCall) :
    canceledEventsFor t (runCancels active cs) ≤ 1 ∧
    (c.task_id ∈ active →
      ARKAgentExecutor.cancel active c =
        (active.filter (fun x => x ≠ c.task_id),
         [create_status_event c.context_id (some c.task_id) TaskState.canceled true none])) ∧
    (c.task_id ∉ active →
      ARKAgentExecutor.cancel active c = (active, [])) := by
  refine ⟨runCancels_at_most_one t cs active, ?_, ?_⟩
  · intro h; simp [ARKAgentExecutor.cancel, h]
  · intro h; simp [ARKAgentExecutor.cancel, h]

/-- Witness for C8 at a concrete input: two successive cancels of the same
registered task id yield at most one canceled event, and the first cancel
removes the entry and enqueues exactly the canceled final event. -/
theorem cancel_idempotent_wit :
    canceledEventsFor "a" (runCancels ["a"] [⟨"a", none⟩, ⟨"a", none⟩]) ≤ 1 ∧
    ARKAgentExecutor.cancel ["a"] ⟨"a", none⟩ =
      ([], [create_status_event none (some "a") TaskState.canceled true none]) :=
  ⟨(cancel_idempotent "a" ["a"] [⟨"a", none⟩, ⟨"a", none⟩] ⟨"a", none⟩).1,
   (cancel_idempotent "a" ["a"] [⟨"a", none⟩, ⟨"a", none⟩] ⟨"a", none⟩).2.1 (by decide)⟩

theorem waitLoop_terminal (timeout : Nat) (obs : Nat → A2AQuery) (fuel i : Nat)
    (r : WaitResult) (h : waitStep (obs i) = some r) :
    waitLoop timeout obs (fuel + 1) i = r := by
  simp [waitLoop, h]

theorem waitLoop_reach (timeout : Nat) (obs : Nat → A2AQuery) (r : WaitResult) :
    ∀ (k fuel i : Nat), k < fuel → (∀ j, j < k → waitStep (obs (i + j)) = none) →
      waitStep (obs (i + k)) = some r → waitLoop timeout obs fuel i = r := by
  intro k
  induction k with
  | zero =>
    intro fuel i hk _ hterm
    obtain ⟨f, rfl⟩ : ∃ f, fuel = f + 1 := ⟨fuel - 1, by omega⟩
    simpa using waitLoop_terminal timeout obs f i r (by simpa using hterm)
  | succ k ih =>
    intro fuel i hk hpre hterm
    obtain ⟨f, rfl⟩ : ∃ f, fuel = f + 1 := ⟨fuel - 1, by omega⟩
    have h0 : waitStep (obs i) = none := by simpa using hpre 0 (by omega)
    rw [show waitLoop timeout obs (f + 1) i = waitLoop timeout obs f (i + 1) by
      simp [waitLoop, h0]]
    refine ih f (i + 1) (by omega) ?_ ?_
    · intro j hj
      have := hpre (j + 1) (by omega)
      simpa [Nat.add_assoc, Nat.add_comm 1 j] using this
    · have : i + (k + 1) = i + 1 + k := by omega
      rw [this] at hterm
      exact hterm

/-- C3 counterexample: a query that reaches phase done with a present responses
list whose first content is the empty string.  The code returns the literal
"No response content", not responses[0].content (which is the empty string),
refuting the claim that the done phase returns responses[0].content whenever
the responses list is present. -/
theorem wait_for_query_blank_content_cx :
    wait_for_query 60 (fun _ => ⟨some ⟨some "done", some [⟨some ""⟩]⟩⟩) =
      .ok "No response content" ∧
    "No response content" ≠ "" := by
  constructor
  · rfl
  · decide

/-- C3 amended: when the polled status first reaches phase done (after k < timeout
non-returning polls), wait_for_query returns without raising: the first
response's content when it is non-empty, the literal "No response content" when
the responses list is non-empty but its first content is null or empty, and the
literal "Query completed but no response available" when the responses list is
null or empty. -/
theorem wait_for_query_done_amended (timeout k : Nat) (obs : Nat → A2AQuery)
    (st : A2AStatus) (hk : k < timeout)
    (hpre : ∀ j, j < k → waitStep (obs j) = none)
    (hst : obs k = ⟨some st⟩) (hph : st.phase = some "done") :
    wait_for_query timeout obs =
      (match st.responses with
       | some (r :: _) => .ok (pyOr r.content "No response content")
       | _ => .ok "Query completed but no response available") ∧
    ∃ s, wait_for_query timeout obs = WaitResult.ok s := by
  have hterm : waitStep (obs k) =
      some (match st.responses with
            | some (r :: _) => .ok (pyOr r.content "No response content")
            | _ => .ok "Query completed but no response available") := by
    rw [hst]
    simp [waitStep, hph]
    decide
  have hmain : wait_for_query timeout obs =
      (match st.responses with
       | some (r :: _) => .ok (pyOr r.content "No response content")
       | _ => .ok "Query completed but no response available") := by
    unfold wait_for_query
    exact waitLoop_reach timeout obs _ k timeout 0 hk (by simpa using hpre)
      (by simpa using hterm)
  refine ⟨hmain, ?_⟩
  rcases hr : st.responses with _ | rs
  · exact ⟨_, by rw [hmain, hr]⟩
  · rcases rs with _ | ⟨r, rest⟩
    · exact ⟨_, by rw [hmain, hr]⟩
    · exact ⟨_, by rw [hmain, hr]⟩

/-- Witness for C3 at a concrete input: one pending poll, then done with
content "hi"; wait_for_query returns ok "hi". -/
theorem wait_for_query_done_amended_wit :
    wait_for_query 2
        (fun i => if i = 0 then ⟨some ⟨some "running", none⟩⟩
                  else ⟨some ⟨some "done", some [⟨some "hi"⟩]⟩⟩) =
      WaitResult.ok "hi" := by
  have h := wait_for_query_done_amended 2 1
    (fun i => if i = 0 then ⟨some ⟨some "running", none⟩⟩
              else ⟨some ⟨some "done", some [⟨some "hi"⟩]⟩⟩)
    ⟨some "done", some [⟨some "hi"⟩]⟩ (by omega)
    (by intro j hj
        have : j = 0 := by omega
        subst this
        rfl)
    (by rfl) (by rfl)
  simpa using h.1

theorem collectTargetErrors_head_message (rs : List QueryResponse) :
    ∀ k, ((collectTargetErrors k rs).head?.map TargetError.message) = firstNonEmptyContent rs := by
  induction rs with
  | nil => intro k; rfl
  | cons r rest ih =>
    intro k
    by_cases hc : (r.content.getD "").isEmpty
    · simp only [collectTargetErrors, firstNonEmptyContent, if_pos hc]
      exact ih (k + 1)
    · simp only [collectTargetErrors, firstNonEmptyContent, if_neg hc]
      rfl

theorem pollRun_terminal (query_name model : String) (messages : List MsgParam)
    (now : Nat) (obs : Nat → QueryRec) (fuel attempt : Nat)
    (r : Except HttpError ChatCompletion)
    (h : pollLoopBody query_name model messages now (obs attempt) = some r) :
    pollRun query_name model messages now obs (fuel + 1) attempt = (r, 1, 0) := by
  simp [pollRun, h]

theorem pollRun_attempts_le (query_name model : String) (messages : List MsgParam)
    (now : Nat) (obs : Nat → QueryRec) :
    ∀ fuel attempt, (pollRun query_name model messages now obs fuel attempt).2.1 ≤ fuel := by
  intro fuel
  induction fuel with
  | zero => intro attempt; simp [pollRun]
  | succ f ih =>
    intro attempt
    cases h : pollLoopBody query_name model messages now (obs attempt) with
    | some r => simp [pollRun, h]
    | none =>
      have := ih (attempt + 1)
      simp [pollRun, h]
      omega

theorem pollRun_sleep_le (query_name model : String) (messages : List MsgParam)
    (now : Nat) (obs : Nat → QueryRec) :
    ∀ fuel attempt, (pollRun query_name model messages now obs fuel attempt).2.2 ≤ 5 * fuel - 5 := by
  intro fuel
  induction fuel with
  | zero => intro attempt; simp [pollRun]
  | succ f ih =>
    intro attempt
    cases h : pollLoopBody query_name model messages now (obs attempt) with
    | some r => simp [pollRun, h]
    | none =>
      have := ih (attempt + 1)
      rcases Nat.eq_zero_or_pos f with hf | hf
      · subst hf
        simp [pollRun, h]
      · simp [pollRun, h, hf]
        omega

theorem pollRun_all_none (query_name model : String) (messages : List MsgParam)
    (now : Nat) (obs : Nat → QueryRec) :
    ∀ fuel attempt, (∀ i, i < fuel → pollLoopBody query_name model messages now (obs (attempt + i)) = none) →
      (pollRun query_name model messages now obs fuel attempt).1 =
        .error ⟨504, .text s!"Query {query_name} timed out after 5 minutes"⟩ := by
  intro fuel
  induction fuel with
  | zero => intro attempt _; simp [pollRun]
  | succ f ih =>
    intro attempt hall
    have h0 : pollLoopBody query_name model messages now (obs attempt) = none := by
      simpa using hall 0 (by omega)
    have hrest : ∀ i, i < f → pollLoopBody query_name model messages now (obs (attempt + 1 + i)) = none := by
      intro i hi
      have := hall (i + 1) (by omega)
      simpa [Nat.add_assoc, Nat.add_comm 1 i] using this
    simp [pollRun, h0]
    exact ih (attempt + 1) hrest

theorem pollLoopBody_none_of_phase (query_name model : String) (messages : List MsgParam)
    (now : Nat) (q : QueryRec)
    (h1 : observedPhase q ≠ "done") (h2 : observedPhase q ≠ "error") :
    pollLoopBody query_name model messages now q = none := by
  unfold observedPhase at h1 h2
  simp only [pollLoopBody]
  rw [if_neg h1, if_neg h2]

/-- C6: every call performs at most 60 get-query attempts, sleeps at most
295 seconds in the 5-second inter-attempt pauses (under the 5-minute ceiling),
and when no observed attempt has a terminal phase (done or error) the call
raises HTTP 504 "Query name timed out after 5 minutes"; the loop is fuel-bounded,
hence total. -/
theorem poll_bounded_504 (query_name model : String) (messages : List MsgParam)
    (now : Nat) (obs : Nat → QueryRec) :
    pollAttempts query_name model messages now obs ≤ 60 ∧
    pollSleepSeconds query_name model messages now obs ≤ 295 ∧
    ((∀ i, i < 60 → observedPhase (obs i) ≠ "done" ∧ observedPhase (obs i) ≠ "error") →
      poll_query_completion query_name model messages now obs =
        .error ⟨504, .text s!"Query {query_name} timed out after 5 minutes"⟩) := by
  refine ⟨pollRun_attempts_le query_name model messages now obs 60 0,
          ?_, ?_⟩
  · have := pollRun_sleep_le query_name model messages now obs 60 0
    simpa using this
  · intro hall
    apply pollRun_all_none query_name model messages now obs 60 0
    intro i hi
    rw [Nat.zero_add]
    exact pollLoopBody_none_of_phase query_name model messages now (obs i)
      (hall i hi).1 (hall i hi).2

/-- Witness for C6 at a concrete input: a query whose status never appears
yields the 504 timeout error. -/
theorem poll_bounded_504_wit :
    poll_query_completion "q" "m" [] 0 (fun _ => ⟨none, none⟩) =
      .error ⟨504, .text "Query q timed out after 5 minutes"⟩ :=
  (poll_bounded_504 "q" "m" [] 0 (fun _ => ⟨none, none⟩)).2.2
    (fun i _ => by constructor <;> decide)

theorem wordCountAux_append_space (a b : List Char) (f : Bool) :
    wordCountAux (a ++ ' ' :: b) f = wordCountAux a f + wordCountAux b false := by
  induction a generalizing f with
  | nil => simp [wordCountAux]
  | cons c a ih =>
    by_cases hc : c.isWhitespace
    · simp [wordCountAux, hc, ih]
    · simp [wordCountAux, hc, ih]
      omega

theorem pyWords_pyJoin (l : List String) :
    pyWords (pyJoin " " l) = (l.map pyWords).sum := by
  induction l with
  | nil => rfl
  | cons s rest ih =>
    cases rest with
    | nil => simp [pyJoin, pyWords]
    | cons s2 rest2 =>
      have hsp : (" " : String).data = [' '] := rfl
      have hdata : (s ++ " " ++ pyJoin " " (s2 :: rest2)).data
          = s.data ++ ' ' :: (pyJoin " " (s2 :: rest2)).data := by
        simp [String.data_append, hsp]
      calc pyWords (pyJoin " " (s :: s2 :: rest2))
          = wordCountAux (s.data ++ ' ' :: (pyJoin " " (s2 :: rest2)).data) false := by
            unfold pyWords
            rw [show pyJoin " " (s :: s2 :: rest2) = s ++ " " ++ pyJoin " " (s2 :: rest2)
              from rfl, hdata]
        _ = wordCountAux s.data false + wordCountAux (pyJoin " " (s2 :: rest2)).data false :=
            wordCountAux_append_space _ _ _
        _ = ((s :: s2 :: rest2).map pyWords).sum := by
            have : wordCountAux (pyJoin " " (s2 :: rest2)).data false
                = ((s2 :: rest2).map pyWords).sum := ih
            simp [pyWords, this]

/-- C7: the non-streaming completion for a done query with first content c has
id equal to the query name, object "chat.completion", exactly one assistant
choice carrying c with finish_reason stop, prompt_tokens equal to the total
whitespace-separated word count across the prompt messages, completion_tokens
equal to the word count of c, total their sum; and for prompt "hi" with answer
"hello" the usage is 1, 1, 2. -/
theorem chat_completion_shape (query_name model content : String)
    (messages : List MsgParam) (annotations : Option AnnMap) (now : Nat) :
    (create_chat_completion_response query_name model content messages annotations now).id
        = query_name ∧
    (create_chat_completion_response query_name model content messages annotations now).object
        = "chat.completion" ∧
    (create_chat_completion_response query_name model content messages annotations now).choices
        = [⟨0, ⟨"assistant", content⟩, "stop"⟩] ∧
    (create_chat_completion_response query_name model content messages annotations now).usage.prompt_tokens
        = ((messages.map msgText).map pyWords).sum ∧
    (create_chat_completion_response query_name model content messages annotations now).usage.completion_tokens
        = pyWords content ∧
    (create_chat_completion_response query_name model content messages annotations now).usage.total_tokens
        = ((messages.map msgText).map pyWords).sum + pyWords content ∧
    (create_chat_completion_response "q1" "agent/a" "hello" [.dict (some "hi")] none 7).usage
        = ⟨1, 1, 2⟩ := by
  refine ⟨rfl, rfl, rfl, ?_, rfl, ?_, by decide⟩
  · simpa [create_chat_completion_response] using pyWords_pyJoin (messages.map msgText)
  · simpa [create_chat_completion_response] using
      congrArg (· + pyWords content) (pyWords_pyJoin (messages.map msgText))

/-- C4: when the polled status reaches phase error, the OpenAI path raises
HTTP 500 with the structured detail from _get_error_detail, whose message is
the first non-empty response content, else a non-empty status message, else
the fixed literal; its errors field lists the per-target pairs exactly when
two or more exist, else is empty.  At the spec's concrete scenario (two
responses "a"/"b") the detail is message "a" with both pairs. -/
theorem error_detail_spec (m : Option String) (rs : List QueryResponse)
    (query_name model : String) (messages : List MsgParam) (annotations : Option AnnMap)
    (now : Nat) :
    poll_query_completion query_name model messages now
        (fun _ => ⟨some ⟨some "error", m, some rs⟩, annotations⟩) =
      .error ⟨500, .err (get_error_detail ⟨some "error", m, some rs⟩)⟩ ∧
    (get_error_detail ⟨some "error", m, some rs⟩).message =
      (match firstNonEmptyContent rs with
       | some c => c
       | none =>
         match m with
         | some s => if s.isEmpty then "Query execution failed: No error details available" else s
         | none => "Query execution failed: No error details available") ∧
    (get_error_detail ⟨some "error", m, some rs⟩).errors =
      (if 2 ≤ (collectTargetErrors 0 rs).length then collectTargetErrors 0 rs else []) ∧
    get_error_detail ⟨some "error", none, some [⟨some "a", some "t1"⟩, ⟨some "b", some "t2"⟩]⟩ =
      ⟨"a", [⟨"t1", "a"⟩, ⟨"t2", "b"⟩]⟩ := by
  refine ⟨?_, ?_, ?_, by decide⟩
  · have hb : pollLoopBody query_name model messages now
        ⟨some ⟨some "error", m, some rs⟩, annotations⟩ =
        some (.error ⟨500, .err (get_error_detail ⟨some "error", m, some rs⟩)⟩) := by
      simp [pollLoopBody]
    unfold poll_query_completion
    rw [show (60 : Nat) = 59 + 1 from rfl,
      pollRun_terminal query_name model messages now _ 59 0 _ hb]
  · have hhead := collectTargetErrors_head_message rs 0
    unfold get_error_detail
    dsimp only [Option.getD_some]
    cases hc : collectTargetErrors 0 rs with
    | nil =>
      rw [hc] at hhead
      simp only [List.head?, Option.map] at hhead
      rw [← hhead]
      cases m with
      | none =>
        simp only [Option.getD]
        rfl
      | some s => by_cases hs : s.isEmpty <;> simp [hs]
    | cons te rest =>
      rw [hc] at hhead
      simp only [List.head?, Option.map] at hhead
      rw [← hhead]
  · unfold get_error_detail
    by_cases h2 : 2 ≤ (collectTargetErrors 0 rs).length
    · have h1 : 1 < (collectTargetErrors 0 rs).length := by omega
      simp [h1, h2]
    · have h1 : ¬(1 < (collectTargetErrors 0 rs).length) := by omega
      simp [h1, h2]

/-- C10: on a done phase with an absent or empty responses list the OpenAI
path raises HTTP 500 "No response received", while the A2A path returns the
literal fallback "Query completed but no response available". -/
theorem done_no_responses_divergence (query_name model : String)
    (messages : List MsgParam) (annotations : Option AnnMap) (now : Nat) (m : Option String) :
    poll_query_completion query_name model messages now
        (fun _ => ⟨some ⟨some "done", m, some []⟩, annotations⟩) =
      .error ⟨500, .text "No response received"⟩ ∧
    poll_query_completion query_name model messages now
        (fun _ => ⟨some ⟨some "done", m, none⟩, annotations⟩) =
      .error ⟨500, .text "No response received"⟩ ∧
    wait_for_query 60 (fun _ => ⟨some ⟨some "done", none⟩⟩) =
      .ok "Query completed but no response available" ∧
    wait_for_query 60 (fun _ => ⟨some ⟨some "done", some []⟩⟩) =
      .ok "Query completed but no response available" := by
  refine ⟨?_, ?_, rfl, rfl⟩
  · have hb : pollLoopBody query_name model messages now
        ⟨some ⟨some "done", m, some []⟩, annotations⟩ =
        some (.error ⟨500, .text "No response received"⟩) := by
      simp [pollLoopBody]
    unfold poll_query_completion
    rw [show (60 : Nat) = 59 + 1 from rfl,
      pollRun_terminal query_name model messages now _ 59 0 _ hb]
  · have hb : pollLoopBody query_name model messages now
        ⟨some ⟨some "done", m, none⟩, annotations⟩ =
        some (.error ⟨500, .text "No response received"⟩) := by
      simp [pollLoopBody]
    unfold poll_query_completion
    rw [show (60 : Nat) = 59 + 1 from rfl,
      pollRun_terminal query_name model messages now _ 59 0 _ hb]

/-- C5: with stream=true and a missing or disabled streaming config the
adapter takes the fallback branch, whose body is exactly two SSE frames: a
data frame carrying the chunk built from the polled completion (full content,
finish_reason stop) followed by the exact DONE sentinel, both terminated by
two newlines. -/
theorem streaming_fallback_sse (cfg : Option StreamingConfigRec) (base_url : String)
    (query_name model content : String) (messages : List MsgParam)
    (annotations : Option AnnMap) (now : Nat)
    (hcfg : ∀ c ∈ cfg, c.enabled = false) :
    streamingDecision true cfg base_url query_name = .fallbackSingleChunk ∧
    ∃ ck,
      completionToChunk
          (create_chat_completion_response query_name model content messages annotations now) =
        some ck ∧
      create_single_chunk_sse_response
          (create_chat_completion_response query_name model content messages annotations now) =
        some [s!"data: {chunkJson ck}\n\n", "data: [DONE]\n\n"] ∧
      ck.choices = [⟨0, ⟨"assistant", some content⟩, "stop"⟩] ∧
      ck.id = query_name ∧
      ck.object = "chat.completion.chunk" ∧
      ck.usage =
        (create_chat_completion_response query_name model content messages annotations now).usage := by
  constructor
  · cases cfg with
    | none => rfl
    | some c =>
      have hce : c.enabled = false := hcfg c rfl
      simp [streamingDecision, hce]
  · exact ⟨_, rfl, rfl, rfl, rfl, rfl, rfl⟩

/-- Witness for C5 at a concrete input: a disabled streaming config and the
completion for prompt "hi", answer "hello". -/
theorem streaming_fallback_sse_wit :
    streamingDecision true (some ⟨false⟩) "http://base" "q1" = .fallbackSingleChunk ∧
    ∃ ck,
      completionToChunk
          (create_chat_completion_response "q1" "agent/a" "hello" [.dict (some "hi")] none 7) =
        some ck ∧
      create_single_chunk_sse_response
          (create_chat_completion_response "q1" "agent/a" "hello" [.dict (some "hi")] none 7) =
        some [s!"data: {chunkJson ck}\n\n", "data: [DONE]\n\n"] ∧
      ck.choices = [⟨0, ⟨"assistant", some "hello"⟩, "stop"⟩] ∧
      ck.id = "q1" ∧
      ck.object = "chat.completion.chunk" ∧
      ck.usage =
        (create_chat_completion_response "q1" "agent/a" "hello" [.dict (some "hi")] none 7).usage :=
  streaming_fallback_sse (some ⟨false⟩) "http://base" "q1" "agent/a" "hello"
    [.dict (some "hi")] none 7
    (by intro c hc
        rw [Option.mem_def] at hc
        injection hc with h2
        subst h2
        rfl)

/-- C9: for a non-2xx backend status the proxy emits exactly one SSE data
frame, holding the error parsed from the body when the expected structure is
present and the synthesized default otherwise, and forwards no backend line;
a successfully parsed error carries the backend status code, and the
synthesized default's message is the status code followed by the reason
phrase with type and code set to server_error. -/
theorem proxy_error_frame (r : BackendResponse)
    (h : r.status_code < 200 ∨ 300 ≤ r.status_code) :
    proxy_streaming_response r =
      [s!"data: {errorFrameJson ((parseErrorStructure r.status_code r.body).getD (synthesizedError r.status_code r.reason_phrase))}\n\n"] ∧
    (proxy_streaming_response r).length = 1 ∧
    (∀ d, parseErrorStructure r.status_code r.body = some d → d.status = r.status_code) ∧
    (synthesizedError r.status_code r.reason_phrase).message =
      s!"{r.status_code} {r.reason_phrase}" ∧
    (synthesizedError r.status_code r.reason_phrase).type = "server_error" ∧
    (synthesizedError r.status_code r.reason_phrase).code = .str "server_error" := by
  have hne : r.status_code ≠ 200 := by omega
  have hmain : proxy_streaming_response r =
      [s!"data: {errorFrameJson ((parseErrorStructure r.status_code r.body).getD (synthesizedError r.status_code r.reason_phrase))}\n\n"] := by
    unfold proxy_streaming_response
    rw [if_pos hne]
  refine ⟨hmain, by rw [hmain]; rfl, ?_, rfl, rfl, rfl⟩
  intro d hd
  unfold parseErrorStructure at hd
  rcases Option.map_eq_some'.mp hd with ⟨p, _, he⟩
  rw [← he]

/-- Witness for C9 at a concrete input: a 503 with an unparseable body emits
exactly the one synthesized error frame, forwarding none of the backend lines. -/
theorem proxy_error_frame_wit :
    proxy_streaming_response ⟨503, "Service Unavailable", none, ["data: x"]⟩ =
      [s!"data: {errorFrameJson witnessProxyError}\n\n"] :=
  (proxy_error_frame ⟨503, "Service Unavailable", none, ["data: x"]⟩ (Or.inr (by decide))).1

theorem processSkills_mem (agent : String) :
    ∀ (entries : List SkillsEntry) (k i : Nat) (d : SkillDict),
      entries[i]? = some (.dict d) →
      (⟨pyOr d.id s!"{agent}-skill-{k + i}", d.name, d.description, d.tags⟩ : AgentSkill) ∈
        processSkills agent k entries := by
  intro entries
  induction entries with
  | nil => intro k i d h; simp at h
  | cons e rest ih =>
    intro k i d h
    cases i with
    | zero =>
      simp at h
      subst h
      simp [processSkills]
    | succ i =>
      simp at h
      have hmem := ih (k + 1) i d h
      have harith : k + (i + 1) = (k + 1) + i := by omega
      rw [harith]
      cases e with
      | dict d2 =>
        exact List.mem_cons_of_mem _ hmem
      | other s =>
        exact hmem

/-- C2 counterexample: an agent whose annotations carry a truthy singular
skill key but no plural skills key projects to a card with an empty skills
list, refuting the claim that the projected skills list is never empty. -/
theorem agent_card_empty_skills_cx :
    (ark_to_agent_card "a" ⟨some (.str "x"), none⟩ none
      ⟨"http", "localhost", "8000", ""⟩).skills = [] := rfl

/-- C2 amended: each structured dict entry lacking an id (missing or empty)
yields a skill with id name-skill-index by input position; when both skill
annotation keys are absent the projected skills are exactly the synthetic
General skill; but the fallback is keyed on the singular skill annotation, so
a truthy singular key with no structured plural entries (an empty list or an
absent key) leaves the projected skills list empty. -/
theorem agent_card_skills_amended (agent : String) (description : Option String)
    (u : UrlComponents) (v : AnnValue) (entries : List SkillsEntry) (i : Nat)
    (d : SkillDict) (skAnn : Option AnnValue)
    (hd : entries[i]? = some (.dict d)) (hid : pyOr d.id "" = "")
    (hv : pyTruthyAnn v = true) :
    (⟨s!"{agent}-skill-{i}", d.name, d.description, d.tags⟩ : AgentSkill) ∈
      (ark_to_agent_card agent ⟨skAnn, some (.list entries)⟩ description u).skills ∧
    (ark_to_agent_card agent ⟨none, none⟩ description u).skills = [defaultSkill agent] ∧
    (ark_to_agent_card agent ⟨some v, some (.list [])⟩ description u).skills = [] ∧
    (ark_to_agent_card agent ⟨some v, none⟩ description u).skills = [] := by
  refine ⟨?_, rfl, ?_, ?_⟩
  · have hm := processSkills_mem agent entries 0 i d hd
    rw [Nat.zero_add] at hm
    have hpy : pyOr d.id s!"{agent}-skill-{i}" = s!"{agent}-skill-{i}" := by
      cases hdid : d.id with
      | none => rfl
      | some s =>
        by_cases hse : s.isEmpty
        · simp [pyOr, hse]
        · exfalso
          simp [pyOr, hdid, hse] at hid
          subst hid
          exact hse rfl
    rw [hpy] at hm
    simp only [ark_to_agent_card, Option.getD_some, entriesOf]
    split
    · exact hm
    · exact List.mem_append_left _ hm
  · simp [ark_to_agent_card, entriesOf, processSkills, hv]
  · simp [ark_to_agent_card, entriesOf, processSkills, hv]

/-- Witness for C2 at concrete inputs: an unnamed structured skill acquires
id a-skill-0; with no annotations the card carries exactly the General skill;
with a truthy singular key and no structured entries the skills list is empty. -/
theorem agent_card_skills_amended_wit :
    (⟨"a-skill-0", "Skill", none, []⟩ : AgentSkill) ∈
      (ark_to_agent_card "a" ⟨none, some (.list [.dict ⟨none, "Skill", none, []⟩])⟩ none
        ⟨"http", "localhost", "8000", ""⟩).skills ∧
    (ark_to_agent_card "a" ⟨none, none⟩ none
      ⟨"http", "localhost", "8000", ""⟩).skills = [defaultSkill "a"] ∧
    (ark_to_agent_card "a" ⟨some (.str "x"), some (.list [])⟩ none
      ⟨"http", "localhost", "8000", ""⟩).skills = [] ∧
    (ark_to_agent_card "a" ⟨some (.str "x"), none⟩ none
      ⟨"http", "localhost", "8000", ""⟩).skills = [] := by
  have h := agent_card_skills_amended "a" none ⟨"http", "localhost", "8000", ""⟩
    (.str "x") [.dict ⟨none, "Skill", none, []⟩] 0 ⟨none, "Skill", none, []⟩ none
    rfl rfl rfl
  exact ⟨h.1, h.2.1, h.2.2.1, h.2.2.2⟩
